import Mathlib

/-!
Shallow embedding of the Proxmox VE Home Assistant integration
(custom_components/proxmox_ve): api.py, __init__.py, sensor.py and button.py.

Python dynamic values are modeled with small inductive types, the REST calls
made through the wrapped proxmoxer client are modeled as an environment of
fallible results, and Python exceptions are modeled with `Except`.  Numeric
values that are Python floats are modeled over `ℚ` (exact for every value the
program manipulates symbolically).
-/

/-- Python exception values the embedded code can raise or observe. -/
inductive PyErr where
  | typeError
  | attributeError
  | valueError
  | apiError (msg : String)
  | updateFailed (inner : PyErr)
  deriving DecidableEq

/-- A Proxmox configuration value as the LXC branch of `get_vms` sees it:
either a JSON string or a JSON integer. -/
inductive PVal where
  | s (v : String)
  | i (v : ℤ)
  deriving DecidableEq

/-- A QEMU configuration value as the QEMU branch of `get_vms` accesses it:
the code applies `.get` and containment checks to disk entries, so those are
mappings from keys to `PVal`; other entries may be integers or strings. -/
inductive QVal where
  | qi (v : ℤ)
  | qs (v : String)
  | qd (kvs : List (String × PVal))
  deriving DecidableEq

/-- A Proxmox VM identifier: the JSON may carry it as an integer or a string.
The code compares identifiers through `str(...)` on both sides. -/
inductive PyId where
  | int (n : ℤ)
  | str (s : String)
  deriving DecidableEq

/-- Python `str()` applied to a `PyId`. -/
def pyStr : PyId → String
  | .int n => toString n
  | .str s => s

/-- Value of a list of decimal digit characters. -/
def digitsVal (cs : List Char) : ℕ :=
  cs.foldl (fun a c => 10 * a + (c.toNat - 48)) 0

/-- Core of Python `float()` on a character list: an integer part, optionally
followed by a decimal point and a fractional part.  (The exponent, infinity,
nan, underscore and whitespace forms of CPython's parser are outside the
inputs this program manipulates and are not modeled.) -/
def pyFloatCore (cs : List Char) : Option ℚ :=
  let ip := cs.takeWhile Char.isDigit
  let rest := cs.dropWhile Char.isDigit
  match rest with
  | [] => if ip.isEmpty then none else some (digitsVal ip : ℚ)
  | c :: fp =>
    if c = '.' then
      if fp.all Char.isDigit && !(ip.isEmpty && fp.isEmpty) then
        some ((digitsVal ip : ℚ) + (digitsVal fp : ℚ) / ((10 : ℚ) ^ fp.length))
      else none
    else none

/-- Python `float()` on a string: an optional sign followed by the core form;
`none` models a raised `ValueError`. -/
def pyFloat (s : String) : Option ℚ :=
  match s.data with
  | [] => none
  | c :: cs =>
    if c = '-' then (pyFloatCore cs).map (fun q => -q)
    else if c = '+' then pyFloatCore cs
    else pyFloatCore (c :: cs)

/-- Python `int()` on a string: an optional sign followed by digits. -/
def pyIntOfStr (s : String) : Except PyErr ℤ :=
  match s.data with
  | [] => .error .valueError
  | c :: cs =>
    if c = '-' then
      if cs ≠ [] ∧ cs.all Char.isDigit then .ok (-(digitsVal cs : ℤ))
      else .error .valueError
    else if (c :: cs).all Char.isDigit then .ok (digitsVal (c :: cs) : ℤ)
    else .error .valueError

/-- Python `int()` on a configuration value. -/
def pyIntP : PVal → Except PyErr ℤ
  | .i n => .ok n
  | .s s => pyIntOfStr s

/-- Substring containment over character lists (Python `sub in s` on str). -/
def listContainsSub (sub : List Char) : List Char → Bool
  | [] => sub.isEmpty
  | c :: rest => sub.isPrefixOf (c :: rest) || listContainsSub sub rest

/-- Python `sub in s` for strings. -/
def pyInSub (sub s : String) : Bool :=
  listContainsSub sub.data s.data

/-- Python `s.startswith(pre)`. -/
def pyStartsWith (s pre : String) : Bool :=
  pre.data.isPrefixOf s.data

/-- Python `s.endswith(suf)`. -/
def pyEndsWith (s suf : String) : Bool :=
  suf.data.isSuffixOf s.data

/-- Python `s[:-1]`: the string without its last character. -/
def strInit (s : String) : String :=
  ⟨s.data.dropLast⟩

/-- Worker for Python `str.split(sep)` with a non-empty separator, scanning
left to right; the fuel argument is at least the length of the remaining
input, so it never runs out. -/
def splitGo (sep : List Char) : List Char → List Char → ℕ → List (List Char)
  | cs, acc, 0 => [acc.reverse ++ cs]
  | cs, acc, fuel + 1 =>
    match cs with
    | [] => [acc.reverse]
    | c :: rest =>
      if sep.isPrefixOf (c :: rest) then
        acc.reverse :: splitGo sep (List.drop sep.length (c :: rest)) [] fuel
      else
        splitGo sep rest (c :: acc) fuel

/-- Python `s.split(sep)` for a non-empty separator. -/
def pySplit (s sep : String) : List String :=
  (splitGo sep.data s.data [] (s.data.length + 1)).map (fun l => ⟨l⟩)

/-- Python truthiness of an optional string (`None` and `""` are falsy). -/
def optStrTruthy : Option String → Bool
  | none => false
  | some s => decide (s ≠ "")

/-- Python `v * k` for a configuration value and a non-negative integer:
integers multiply, strings repeat, mappings raise `TypeError`. -/
def pyValMulNat : QVal → ℕ → Except PyErr QVal
  | .qi n, k => .ok (.qi (n * (k : ℤ)))
  | .qs s, k => .ok (.qs (String.join (List.replicate k s)))
  | .qd _, _ => .error .typeError

/-- Python `needle in v` on a configuration value: substring test on strings,
key-membership test on mappings, `TypeError` on integers. -/
def pyInQ (needle : String) : QVal → Except PyErr Bool
  | .qi _ => .error .typeError
  | .qs s => .ok (pyInSub needle s)
  | .qd kvs => .ok ((List.lookup needle kvs).isSome)

/-- Python `v.get(k, dflt)` on a configuration value: only mappings have
`.get`; strings and integers raise `AttributeError`. -/
def pyDictGetQ (v : QVal) (k : String) (dflt : PVal) : Except PyErr PVal :=
  match v with
  | .qd kvs => .ok ((List.lookup k kvs).getD dflt)
  | .qi _ => .error .attributeError
  | .qs _ => .error .attributeError

/-! ## Data fetched from the Proxmox API (inputs of api.py) -/

/-- One element of `self._proxmox.nodes.get()`. -/
structure NodeTop where
  node : String
  name : Option String
  status : Option String

/-- The `memory` sub-mapping of a node status response. -/
structure NodeMemRec where
  used : Option ℤ
  total : Option ℤ

/-- Fields of `self._proxmox.nodes(node_id).status.get()` that the code
reads. -/
structure NodeStatusRec where
  cpu : Option ℚ
  memory : Option NodeMemRec
  uptime : Option ℤ

/-- One element of `self._proxmox.nodes(node_id).disks.list.get()`. -/
structure DiskEntry where
  mount : Option String
  used : Option ℤ
  size : Option ℤ

/-- A used/total pair as built by api.py. -/
structure DiskUT where
  used : ℤ
  total : ℤ
  deriving DecidableEq

/-- One element of `self._proxmox.cluster.resources.get(type="vm")`. -/
structure VmResource where
  vmid : PyId
  node : String
  rtype : Option String
  name : Option String
  status : Option String
  cpu : Option ℚ
  mem : Option ℤ

/-- One record of the `ip-addresses` list of a guest agent interface. -/
structure IpAddrRec where
  ipType : Option String
  ipAddr : Option String

/-- One interface of a guest agent `network-get-interfaces` response. -/
structure NetInterface where
  ipAddresses : List IpAddrRec

/-- A guest agent `network-get-interfaces` response. -/
structure AgentResp where
  result : Option (List NetInterface)

/-- One element of `self._proxmox.cluster.resources.get(type="storage")`. -/
structure StorageRes where
  sid : String
  node : Option String
  stype : Option String
  status : Option String
  used : Option ℤ
  total : Option ℤ

/-! ## Records built by api.py -/

/-- The node record appended by `get_nodes`. -/
structure NodeRecord where
  id : String
  name : String
  status : String
  cpu : ℚ
  memory : DiskUT
  disk : Option DiskUT
  uptime : ℤ
  deriving DecidableEq

/-- The `cpu` sub-mapping of a VM record built by `get_vms`. -/
structure CpuRec where
  used : ℚ
  total : QVal
  deriving DecidableEq

/-- The `memory` sub-mapping of a VM record built by `get_vms`. -/
structure MemRec where
  used : ℤ
  total : QVal
  deriving DecidableEq

/-- The VM/container record appended by `get_vms`. -/
structure VmRecord where
  id : PyId
  name : String
  node : String
  vtype : String
  status : String
  cpu : CpuRec
  memory : MemRec
  diskTotal : ℚ
  ip : Option String
  deriving DecidableEq

/-- The storage record appended by `get_storages`. -/
structure StorageRecord where
  id : String
  node : String
  stype : String
  status : String
  disk : DiskUT
  deriving DecidableEq

/-- The environment of REST calls the API client performs: each field gives
the outcome of one underlying proxmoxer call. -/
structure Env where
  connect : Except PyErr Unit
  nodesTop : Except PyErr (List NodeTop)
  nodeStatus : String → Except PyErr NodeStatusRec
  nodeDisksList : String → Except PyErr (List DiskEntry)
  vmResources : Except PyErr (List VmResource)
  lxcConfig : String → PyId → Except PyErr (List (String × PVal))
  qemuConfig : String → PyId → Except PyErr (List (String × QVal))
  agentNetwork : String → PyId → Except PyErr AgentResp
  storageResources : Except PyErr (List StorageRes)
  lxcStart : String → PyId → Except PyErr Unit
  lxcShutdown : String → PyId → Except PyErr Unit
  lxcReboot : String → PyId → Except PyErr Unit
  lxcStop : String → PyId → Except PyErr Unit
  qemuStart : String → PyId → Except PyErr Unit
  qemuShutdown : String → PyId → Except PyErr Unit
  qemuReboot : String → PyId → Except PyErr Unit
  qemuStop : String → PyId → Except PyErr Unit
  nodeShutdownPost : String → Except PyErr Unit
  nodeRebootPost : String → Except PyErr Unit

/-! ## api.py: get_nodes -/

/-- api.py lines 87-95: pick the first disk entry mounted at "/";
`none` models the empty `disk_usage = {}` mapping. -/
def rootDiskUsage (disks : List DiskEntry) : Option DiskUT :=
  (disks.find? (fun d => d.mount == some "/")).map
    (fun d => { used := d.used.getD 0, total := d.size.getD 0 })

/-- api.py lines 73-105: the body of the per-node `try` of `get_nodes`. -/
def buildNode (env : Env) (nt : NodeTop) : Except PyErr NodeRecord := do
  let st ← env.nodeStatus nt.node
  let disks ← env.nodeDisksList nt.node
  .ok
    { id := nt.node
      name := nt.name.getD nt.node
      status := nt.status.getD "unknown"
      cpu := st.cpu.getD 0
      memory :=
        { used := match st.memory with | none => 0 | some m => m.used.getD 0
          total := match st.memory with | none => 0 | some m => m.total.getD 0 }
      disk := rootDiskUsage disks
      uptime := st.uptime.getD 0 }

/-- api.py lines 71-108: the per-node loop; a failing item is logged and
skipped. -/
def getNodesLoop (env : Env) : List NodeTop → List NodeRecord
  | [] => []
  | nt :: rest =>
    match buildNode env nt with
    | .ok r => r :: getNodesLoop env rest
    | .error _ => getNodesLoop env rest

/-- api.py lines 66-109: `ProxmoxAPI.get_nodes`. -/
def getNodes (env : Env) : Except PyErr (List NodeRecord) := do
  env.connect
  let tops ← env.nodesTop
  .ok (getNodesLoop env tops)

/-! ## api.py: get_vms, LXC branch -/

/-- api.py lines 133-137: scan the container config for the first `net*` key
whose value contains "ip="; applying `in` to an integer value raises. -/
def lxcIpGo : List (String × PVal) → Except PyErr (Option String)
  | [] => .ok none
  | (k, v) :: rest =>
    if pyStartsWith k "net" then
      match v with
      | .i _ => .error .typeError
      | .s sv =>
        if pyInSub "ip=" sv then
          .ok (some ((pySplit ((pySplit ((pySplit sv "ip=").getD 1 "") "/").headD "")
            ",").headD ""))
        else lxcIpGo rest
    else lxcIpGo rest

/-- api.py lines 130-139: the LXC IP lookup with its enclosing
`try/except Exception: pass`. -/
def lxcIp (config : List (String × PVal)) : Option String :=
  match lxcIpGo config with
  | .ok v => v
  | .error _ => none

/-- api.py lines 148-157: parse one size string on the LXC path; a value the
`float` conversion rejects contributes zero. -/
def lxcSizeContribution (size_str : String) : ℚ :=
  if pyEndsWith size_str "G" then
    ((pyFloat (strInit size_str)).map (fun v => v * (1024 * 1024 * 1024))).getD 0
  else if pyEndsWith size_str "M" then
    ((pyFloat (strInit size_str)).map (fun v => v * (1024 * 1024))).getD 0
  else
    (pyFloat size_str).getD 0

/-- api.py lines 142-157: total the `size=` fields of `rootfs*`/`mp*`
entries; applying `in` to an integer value raises (uncaught by the inner
`except ValueError`). -/
def lxcDiskGo : List (String × PVal) → Except PyErr ℚ
  | [] => .ok 0
  | (k, v) :: rest =>
    if pyStartsWith k "rootfs" || pyStartsWith k "mp" then
      match v with
      | .i _ => .error .typeError
      | .s sv =>
        if pyInSub "size=" sv then do
          let size_str := (pySplit ((pySplit sv "size=").getD 1 "") ",").headD ""
          let t ← lxcDiskGo rest
          .ok (lxcSizeContribution size_str + t)
        else lxcDiskGo rest
    else lxcDiskGo rest

/-- api.py lines 126-177: the body of the LXC `try` of `get_vms`. -/
def buildLxc (env : Env) (r : VmResource) : Except PyErr VmRecord := do
  let config ← env.lxcConfig r.node r.vmid
  let ip := lxcIp config
  let total ← lxcDiskGo config
  let cores ← pyIntP ((List.lookup "cores" config).getD (.i 1))
  let mem ← pyIntP ((List.lookup "memory" config).getD (.i 0))
  .ok
    { id := r.vmid
      name := r.name.getD ("Container " ++ pyStr r.vmid)
      node := r.node
      vtype := "lxc"
      status := r.status.getD "unknown"
      cpu := { used := r.cpu.getD 0, total := .qi cores }
      memory := { used := r.mem.getD 0, total := .qi (mem * 1024 * 1024) }
      diskTotal := total
      ip := ip }

/-! ## api.py: get_vms, QEMU branch -/

/-- api.py lines 189-195: one step of the agent interface scan, carrying the
`ip_address` variable; the loop stops at the first truthy value. -/
def agentIpLoop : List NetInterface → Option String → Option String
  | [], acc => acc
  | i :: rest, acc =>
    let acc' :=
      match i.ipAddresses.find? (fun r => r.ipType == some "ipv4") with
      | some r => r.ipAddr
      | none => acc
    if optStrTruthy acc' then acc' else agentIpLoop rest acc'

/-- api.py lines 186-198: the QEMU IP lookup with its enclosing
`try/except Exception: pass`; a raised agent query yields `None`. -/
def qemuIp (resp : Except PyErr AgentResp) : Option String :=
  match resp with
  | .error _ => none
  | .ok a => agentIpLoop (a.result.getD []) none

/-- api.py lines 201-205: collect disk entries: keys with an `ide`/`sata`/
`scsi`/`virtio` prefix whose value contains "size". -/
def qemuCollectDisks : List (String × QVal) → Except PyErr (List QVal)
  | [] => .ok []
  | (k, v) :: rest =>
    if pyStartsWith k "ide" || pyStartsWith k "sata" || pyStartsWith k "scsi"
        || pyStartsWith k "virtio" then do
      let b ← pyInQ "size" v
      let tail ← qemuCollectDisks rest
      .ok (if b then v :: tail else tail)
    else qemuCollectDisks rest

/-- api.py lines 210-220: parse one size value on the QEMU path; the inner
`try` catches only `ValueError`, so `.endswith` on an integer raises. -/
def qemuSizeContribution : PVal → Except PyErr ℚ
  | .i _ => .error .attributeError
  | .s size_str =>
    .ok <|
      if pyEndsWith size_str "G" then
        ((pyFloat (strInit size_str)).map (fun v => v * (1024 * 1024 * 1024))).getD 0
      else if pyEndsWith size_str "M" then
        ((pyFloat (strInit size_str)).map (fun v => v * (1024 * 1024))).getD 0
      else
        (pyFloat size_str).getD 0

/-- api.py lines 207-220: total the collected disk values; `.get` on a
non-mapping value raises `AttributeError` (uncaught). -/
def qemuDiskTotalGo : List QVal → Except PyErr ℚ
  | [] => .ok 0
  | v :: rest => do
    let size_str ← pyDictGetQ v "size" (.s "0")
    let c ← qemuSizeContribution size_str
    let t ← qemuDiskTotalGo rest
    .ok (c + t)

/-- api.py lines 182-240: the body of the QEMU `try` of `get_vms`. -/
def buildQemu (env : Env) (r : VmResource) : Except PyErr VmRecord := do
  let config ← env.qemuConfig r.node r.vmid
  let ip := qemuIp (env.agentNetwork r.node r.vmid)
  let disks ← qemuCollectDisks config
  let total ← qemuDiskTotalGo disks
  let m1 ← pyValMulNat ((List.lookup "memory" config).getD (.qi 0)) 1024
  let memTotal ← pyValMulNat m1 1024
  .ok
    { id := r.vmid
      name := r.name.getD ("VM " ++ pyStr r.vmid)
      node := r.node
      vtype := "qemu"
      status := r.status.getD "unknown"
      cpu := { used := r.cpu.getD 0, total := (List.lookup "cores" config).getD (.qi 1) }
      memory := { used := r.mem.getD 0, total := memTotal }
      diskTotal := total
      ip := ip }

/-- api.py lines 120-244: dispatch on the resource type (default "") and run
the matching branch; any error is caught and the item skipped. -/
def buildVmItem (env : Env) (r : VmResource) : Except PyErr VmRecord :=
  if r.rtype.getD "" == "lxc" then buildLxc env r else buildQemu env r

/-- api.py lines 117-244: the per-resource loop of `get_vms`; a failing item
is logged and skipped. -/
def getVmsLoop (env : Env) : List VmResource → List VmRecord
  | [] => []
  | r :: rest =>
    match buildVmItem env r with
    | .ok v => v :: getVmsLoop env rest
    | .error _ => getVmsLoop env rest

/-- api.py lines 111-246: `ProxmoxAPI.get_vms`. -/
def getVms (env : Env) : Except PyErr (List VmRecord) := do
  env.connect
  let rs ← env.vmResources
  .ok (getVmsLoop env rs)

/-! ## api.py: get_storages -/

/-- api.py lines 253-273: keep node-scoped storages only (`None` and `""`
nodes are falsy and skipped). -/
def storagesLoop : List StorageRes → List StorageRecord
  | [] => []
  | s :: rest =>
    if optStrTruthy s.node then
      { id := s.sid
        node := s.node.getD ""
        stype := s.stype.getD "unknown"
        status := s.status.getD "unknown"
        disk := { used := s.used.getD 0, total := s.total.getD 0 } }
        :: storagesLoop rest
    else storagesLoop rest

/-- api.py lines 248-275: `ProxmoxAPI.get_storages`. -/
def getStorages (env : Env) : Except PyErr (List StorageRecord) := do
  env.connect
  let ss ← env.storageResources
  .ok (storagesLoop ss)

/-! ## api.py: _get_vm_type and the action methods -/

/-- api.py lines 280-283: the pure lookup of `_get_vm_type`: ids compared
through `str()` on both sides, unknown VMs default to "qemu". -/
def vmTypeLookup (rs : List VmResource) (node_id : String) (vm_id : PyId) : String :=
  match rs.find? (fun r => pyStr r.vmid == pyStr vm_id && r.node == node_id) with
  | some r => r.rtype.getD "qemu"
  | none => "qemu"

/-- api.py lines 277-283: `ProxmoxAPI._get_vm_type`. -/
def vmTypeRaw (env : Env) (node_id : String) (vm_id : PyId) : Except PyErr String := do
  env.connect
  let rs ← env.vmResources
  .ok (vmTypeLookup rs node_id vm_id)

/-- api.py lines 287-295: the `try` body of `start_vm`. -/
def startVmRaw (env : Env) (node_id : String) (vm_id : PyId) : Except PyErr Unit := do
  env.connect
  let t ← vmTypeRaw env node_id vm_id
  if t == "lxc" then env.lxcStart node_id vm_id else env.qemuStart node_id vm_id

/-- api.py lines 285-298: `ProxmoxAPI.start_vm`. -/
def startVm (env : Env) (node_id : String) (vm_id : PyId) : Bool :=
  match startVmRaw env node_id vm_id with
  | .ok _ => true
  | .error _ => false

/-- api.py lines 302-310: the `try` body of `shutdown_vm`. -/
def shutdownVmRaw (env : Env) (node_id : String) (vm_id : PyId) : Except PyErr Unit := do
  env.connect
  let t ← vmTypeRaw env node_id vm_id
  if t == "lxc" then env.lxcShutdown node_id vm_id else env.qemuShutdown node_id vm_id

/-- api.py lines 300-313: `ProxmoxAPI.shutdown_vm`. -/
def shutdownVm (env : Env) (node_id : String) (vm_id : PyId) : Bool :=
  match shutdownVmRaw env node_id vm_id with
  | .ok _ => true
  | .error _ => false

/-- api.py lines 317-325: the `try` body of `restart_vm`. -/
def restartVmRaw (env : Env) (node_id : String) (vm_id : PyId) : Except PyErr Unit := do
  env.connect
  let t ← vmTypeRaw env node_id vm_id
  if t == "lxc" then env.lxcReboot node_id vm_id else env.qemuReboot node_id vm_id

/-- api.py lines 315-328: `ProxmoxAPI.restart_vm`. -/
def restartVm (env : Env) (node_id : String) (vm_id : PyId) : Bool :=
  match restartVmRaw env node_id vm_id with
  | .ok _ => true
  | .error _ => false

/-- api.py lines 332-340: the `try` body of `force_stop_vm`. -/
def forceStopVmRaw (env : Env) (node_id : String) (vm_id : PyId) : Except PyErr Unit := do
  env.connect
  let t ← vmTypeRaw env node_id vm_id
  if t == "lxc" then env.lxcStop node_id vm_id else env.qemuStop node_id vm_id

/-- api.py lines 330-343: `ProxmoxAPI.force_stop_vm`. -/
def forceStopVm (env : Env) (node_id : String) (vm_id : PyId) : Bool :=
  match forceStopVmRaw env node_id vm_id with
  | .ok _ => true
  | .error _ => false

/-- api.py lines 347-359: the `try` body of `force_restart_vm` (stop then
start). -/
def forceRestartVmRaw (env : Env) (node_id : String) (vm_id : PyId) : Except PyErr Unit := do
  env.connect
  let t ← vmTypeRaw env node_id vm_id
  if t == "lxc" then do
    env.lxcStop node_id vm_id
    env.lxcStart node_id vm_id
  else do
    env.qemuStop node_id vm_id
    env.qemuStart node_id vm_id

/-- api.py lines 345-362: `ProxmoxAPI.force_restart_vm`. -/
def forceRestartVm (env : Env) (node_id : String) (vm_id : PyId) : Bool :=
  match forceRestartVmRaw env node_id vm_id with
  | .ok _ => true
  | .error _ => false

/-- api.py lines 366-369: the `try` body of `shutdown_node`. -/
def shutdownNodeRaw (env : Env) (node_id : String) : Except PyErr Unit := do
  env.connect
  env.nodeShutdownPost node_id

/-- api.py lines 364-372: `ProxmoxAPI.shutdown_node`. -/
def shutdownNode (env : Env) (node_id : String) : Bool :=
  match shutdownNodeRaw env node_id with
  | .ok _ => true
  | .error _ => false

/-- api.py lines 376-378: the `try` body of `restart_node`. -/
def restartNodeRaw (env : Env) (node_id : String) : Except PyErr Unit := do
  env.connect
  env.nodeRebootPost node_id

/-- api.py lines 374-382: `ProxmoxAPI.restart_node`. -/
def restartNode (env : Env) (node_id : String) : Bool :=
  match restartNodeRaw env node_id with
  | .ok _ => true
  | .error _ => false

/-! ## __init__.py: the coordinator update -/

/-- The three-list data bundle stored by the update coordinator; the source
builds it as a dict holding exactly the keys "nodes", "vms" and "storages". -/
structure Bundle where
  nodes : List NodeRecord
  vms : List VmRecord
  storages : List StorageRecord
  deriving DecidableEq

/-- __init__.py lines 82-99: `_async_update_data`: the three fetches run
sequentially; the second component records the fetches invoked, in order; any
error is re-raised as `UpdateFailed`. -/
def pollUpdateData (env : Env) : Except PyErr Bundle × List String :=
  match getNodes env with
  | .error e => (.error (.updateFailed e), ["get_nodes"])
  | .ok ns =>
    match getVms env with
    | .error e => (.error (.updateFailed e), ["get_nodes", "get_vms"])
    | .ok vs =>
      match getStorages env with
      | .error e => (.error (.updateFailed e), ["get_nodes", "get_vms", "get_storages"])
      | .ok ss =>
        (.ok { nodes := ns, vms := vs, storages := ss },
          ["get_nodes", "get_vms", "get_storages"])

/-- One coordinator tick: the update method receives no previous data and the
coordinator replaces its bundle with the result. -/
def pollTick (env : Env) (_prev : Bundle) : Except PyErr Bundle × List String :=
  pollUpdateData env

/-! ## sensor.py and button.py: record lookup, state and availability -/

/-- sensor.py lines 136-141 (and the identical lookups in button.py): find
the VM record whose id matches under `str()` conversion. -/
def findVmRecord (vms : List VmRecord) (vm_id : PyId) : Option VmRecord :=
  vms.find? (fun vm => pyStr vm.id == pyStr vm_id)

/-- sensor.py lines 591-596: find the node record with the given id. -/
def findNodeRecord (nodes : List NodeRecord) (node_id : String) : Option NodeRecord :=
  nodes.find? (fun n => n.id == node_id)

/-- sensor.py lines 672-677: find the storage record matching both the
storage id and the node id. -/
def findStorageRecord (storages : List StorageRecord) (storage_id node_id : String) :
    Option StorageRecord :=
  storages.find? (fun st => st.id == storage_id && st.node == node_id)

/-- Round-half-to-even on an integer boundary, as Python `round` ties. -/
def roundHalfToEven (q : ℚ) : ℤ :=
  let f := Rat.floor q
  let r := q - (f : ℚ)
  if r < 1 / 2 then f
  else if 1 / 2 < r then f + 1
  else if f % 2 = 0 then f else f + 1

/-- Python `round(x, 2)`, modeled exactly over `ℚ`. -/
def pyRound2 (q : ℚ) : ℚ :=
  ((roundHalfToEven (q * 100) : ℚ)) / 100

/-- The mutable state of a sensor or button entity: its availability flag and
its cached numeric state. -/
structure SensorQState where
  available : Bool
  state : Option ℚ

/-- Integer-valued sensor state. -/
structure SensorZState where
  available : Bool
  state : Option ℤ

/-- sensor.py lines 143-151: `ProxmoxVMCpuSensor._update_state`; on the
unavailable path the cached state is left untouched.  The `cpu` entry built
by `get_vms` is a two-key dict and hence always truthy. -/
def vmCpuUpdateState (prev : SensorQState) (vmData : Option VmRecord) : SensorQState :=
  match vmData with
  | none => { prev with available := false }
  | some v => { available := true, state := some (pyRound2 (v.cpu.used * 100)) }

/-- sensor.py lines 153-158: `ProxmoxVMCpuSensor.native_value`. -/
def vmCpuNativeValue (s : SensorQState) : Option ℚ :=
  if s.available then s.state else none

/-- sensor.py lines 598-606: `ProxmoxNodeDiskSensor._update_state`; an empty
`disk` mapping is falsy and makes the sensor unavailable. -/
def nodeDiskUpdateState (prev : SensorZState) (nodeData : Option NodeRecord) : SensorZState :=
  match nodeData with
  | none => { prev with available := false }
  | some n =>
    match n.disk with
    | none => { prev with available := false }
    | some d => { available := true, state := some d.used }

/-- sensor.py lines 608-613: `ProxmoxNodeDiskSensor.native_value`. -/
def nodeDiskNativeValue (s : SensorZState) : Option ℤ :=
  if s.available then s.state else none

/-- sensor.py lines 679-687: `ProxmoxStorageSensor._update_state`; the
`disk` entry built by `get_storages` is a two-key dict and always truthy. -/
def storageUpdateState (prev : SensorZState) (stData : Option StorageRecord) : SensorZState :=
  match stData with
  | none => { prev with available := false }
  | some st => { available := true, state := some st.disk.used }

/-- sensor.py lines 689-694: `ProxmoxStorageSensor.native_value`. -/
def storageNativeValue (s : SensorZState) : Option ℤ :=
  if s.available then s.state else none

/-- button.py lines 202-209: `ProxmoxVMStartButton._update_availability`. -/
def startButtonAvail (vmData : Option VmRecord) : Bool :=
  match vmData with
  | none => false
  | some v => v.status != "running"

/-- button.py lines 271-278: `ProxmoxVMShutdownButton._update_availability`. -/
def shutdownButtonAvail (vmData : Option VmRecord) : Bool :=
  match vmData with
  | none => false
  | some v => v.status == "running"

/-- button.py lines 340-347: `ProxmoxVMRestartButton._update_availability`. -/
def restartButtonAvail (vmData : Option VmRecord) : Bool :=
  match vmData with
  | none => false
  | some v => v.status == "running"

/-- button.py lines 478-485: `ProxmoxVMForceRestartButton._update_availability`:
available whenever the VM record is present, regardless of status. -/
def forceRestartButtonAvail (vmData : Option VmRecord) : Bool :=
  match vmData with
  | none => false
  | some _ => true

/-! ## Concrete fixtures used to exercise the embedding on closed inputs -/

/-- A node listing entry for a healthy single-node cluster. -/
def sampleNodeTop : NodeTop :=
  { node := "pve", name := some "pve", status := some "online" }

/-- A cluster resource entry for one running QEMU VM. -/
def sampleVmResource : VmResource :=
  { vmid := .int 100, node := "pve", rtype := some "qemu", name := some "vm",
    status := some "running", cpu := some 0, mem := some 0 }

/-- An environment in which every REST call succeeds. -/
def sampleEnv : Env where
  connect := .ok ()
  nodesTop := .ok [sampleNodeTop]
  nodeStatus := fun _ =>
    .ok { cpu := some 0, memory := some { used := some 1, total := some 2 },
          uptime := some 5 }
  nodeDisksList := fun _ => .ok [{ mount := some "/", used := some 10, size := some 20 }]
  vmResources := .ok [sampleVmResource]
  lxcConfig := fun _ _ => .ok []
  qemuConfig := fun _ _ => .ok []
  agentNetwork := fun _ _ => .ok { result := some [] }
  storageResources := .ok
    [{ sid := "local", node := some "pve", stype := some "dir",
       status := some "available", used := some 1, total := some 2 }]
  lxcStart := fun _ _ => .ok ()
  lxcShutdown := fun _ _ => .ok ()
  lxcReboot := fun _ _ => .ok ()
  lxcStop := fun _ _ => .ok ()
  qemuStart := fun _ _ => .ok ()
  qemuShutdown := fun _ _ => .ok ()
  qemuReboot := fun _ _ => .ok ()
  qemuStop := fun _ _ => .ok ()
  nodeShutdownPost := fun _ => .ok ()
  nodeRebootPost := fun _ => .ok ()

/-- `sampleEnv` with the status query of node "pve2" failing. -/
def sampleEnvBadNode : Env :=
  { sampleEnv with
    nodeStatus := fun n =>
      if n = "pve2" then .error (.apiError "down") else sampleEnv.nodeStatus n }

/-- `sampleEnv` with the config query of VM 101 failing. -/
def sampleEnvBadVm : Env :=
  { sampleEnv with
    qemuConfig := fun _ v =>
      if pyStr v = "101" then .error (.apiError "down") else .ok [] }

/-- The node record `get_nodes` builds from `sampleEnv`. -/
def sampleNodeRecord : NodeRecord :=
  { id := "pve", name := "pve", status := "online", cpu := 0,
    memory := { used := 1, total := 2 }, disk := some { used := 10, total := 20 },
    uptime := 5 }

/-- The VM record `get_vms` builds from `sampleEnv`. -/
def sampleVmRecord : VmRecord :=
  { id := .int 100, name := "vm", node := "pve", vtype := "qemu",
    status := "running", cpu := { used := 0, total := .qi 1 },
    memory := { used := 0, total := .qi 0 }, diskTotal := 0, ip := none }

/-- The storage record `get_storages` builds from `sampleEnv`. -/
def sampleStorageRecord : StorageRecord :=
  { id := "local", node := "pve", stype := "dir", status := "available",
    disk := { used := 1, total := 2 } }

/-! ## Statement of the spec's wording for the IPv4 selection -/

/-- Following the spec's words only: the first address whose
`ip-address-type` equals "ipv4", in interface order then address order. -/
def firstIpv4Spec (ifaces : List NetInterface) : Option String :=
  (((ifaces.map (fun i => i.ipAddresses)).flatten).find?
    (fun r => r.ipType == some "ipv4")).bind (fun r => r.ipAddr)

/-! ## Helper lemmas -/

theorem pyEndsWith_concat_self (cs : List Char) (c : Char) :
    pyEndsWith ⟨cs ++ [c]⟩ (String.mk [c]) = true := by
  simp [pyEndsWith, List.isSuffixOf_iff_suffix]

theorem pyEndsWith_concat_ne (cs : List Char) (c c' : Char) (h : c ≠ c') :
    pyEndsWith ⟨cs ++ [c]⟩ (String.mk [c']) = false := by
  cases hb : pyEndsWith ⟨cs ++ [c]⟩ (String.mk [c']) with
  | false => rfl
  | true =>
    exfalso
    rw [pyEndsWith] at hb
    obtain ⟨t, ht⟩ := List.isSuffixOf_iff_suffix.mp hb
    have := congrArg List.getLast? ht
    simp only [List.getLast?_concat] at this
    exact h (Option.some.inj this).symm

theorem pyEndsWith_digits (cs : List Char) (h : ∀ x ∈ cs, x.isDigit = true)
    (c' : Char) (hc : c'.isDigit = false) : pyEndsWith ⟨cs⟩ (String.mk [c']) = false := by
  cases hb : pyEndsWith ⟨cs⟩ (String.mk [c']) with
  | false => rfl
  | true =>
    exfalso
    rw [pyEndsWith] at hb
    obtain ⟨t, ht⟩ := List.isSuffixOf_iff_suffix.mp hb
    have ht' : t ++ [c'] = cs := ht
    have hmem : c' ∈ cs := by
      rw [← ht']
      exact List.mem_append_right t (by simp)
    rw [h c' hmem] at hc
    exact Bool.noConfusion hc

theorem strInit_concat (cs : List Char) (c : Char) : strInit ⟨cs ++ [c]⟩ = ⟨cs⟩ := by
  simp [strInit]

theorem pyFloat_digits (cs : List Char) (h0 : cs ≠ []) (h : ∀ x ∈ cs, x.isDigit = true) :
    pyFloat ⟨cs⟩ = some (digitsVal cs : ℚ) := by
  cases cs with
  | nil => exact absurd rfl h0
  | cons a as =>
    have ha : a.isDigit = true := h a (List.mem_cons_self a as)
    have hm : a ≠ '-' := by intro e; rw [e] at ha; exact absurd ha (by decide)
    have hp : a ≠ '+' := by intro e; rw [e] at ha; exact absurd ha (by decide)
    have htw : List.takeWhile Char.isDigit (a :: as) = a :: as :=
      List.takeWhile_eq_self_iff.mpr h
    have hdw : List.dropWhile Char.isDigit (a :: as) = [] :=
      List.dropWhile_eq_nil_iff.mpr h
    simp [pyFloat, hm, hp, pyFloatCore, htw, hdw]

theorem lxcSize_concat_G (cs : List Char) (v : ℚ) (h : pyFloat ⟨cs⟩ = some v) :
    lxcSizeContribution ⟨cs ++ ['G']⟩ = v * (1024 * 1024 * 1024) := by
  have hG : pyEndsWith ⟨cs ++ ['G']⟩ "G" = true := pyEndsWith_concat_self cs 'G'
  rw [lxcSizeContribution, if_pos hG, strInit_concat, h]
  rfl

theorem lxcSize_concat_M (cs : List Char) (v : ℚ) (h : pyFloat ⟨cs⟩ = some v) :
    lxcSizeContribution ⟨cs ++ ['M']⟩ = v * (1024 * 1024) := by
  have hG : pyEndsWith ⟨cs ++ ['M']⟩ "G" = false := pyEndsWith_concat_ne cs 'M' 'G' (by decide)
  have hM : pyEndsWith ⟨cs ++ ['M']⟩ "M" = true := pyEndsWith_concat_self cs 'M'
  rw [lxcSizeContribution, if_neg (by simp [hG]), if_pos hM, strInit_concat, h]
  rfl

theorem lxcSize_digits (cs : List Char) (h0 : cs ≠ []) (h : ∀ x ∈ cs, x.isDigit = true) :
    lxcSizeContribution ⟨cs⟩ = (digitsVal cs : ℚ) := by
  have hG : pyEndsWith ⟨cs⟩ "G" = false := pyEndsWith_digits cs h 'G' (by decide)
  have hM : pyEndsWith ⟨cs⟩ "M" = false := pyEndsWith_digits cs h 'M' (by decide)
  rw [lxcSizeContribution, if_neg (by simp [hG]), if_neg (by simp [hM]),
    pyFloat_digits cs h0 h]
  rfl

theorem endsWith_M_not_G (s : String) (hM : pyEndsWith s "M" = true) :
    pyEndsWith s "G" = false := by
  cases hG : pyEndsWith s "G" with
  | false => rfl
  | true =>
    exfalso
    rw [pyEndsWith] at hM hG
    obtain ⟨t1, ht1⟩ := List.isSuffixOf_iff_suffix.mp hM
    obtain ⟨t2, ht2⟩ := List.isSuffixOf_iff_suffix.mp hG
    have ht1' : t1 ++ ['M'] = s.data := ht1
    have ht2' : t2 ++ ['G'] = s.data := ht2
    have h1 := congrArg List.getLast? ht1'
    have h2 := congrArg List.getLast? ht2'
    rw [List.getLast?_concat] at h1 h2
    exact absurd (Option.some.inj (h1.trans h2.symm)) (by decide)

theorem lxcSize_unparseable_G (s : String) (hG : pyEndsWith s "G" = true)
    (h1 : pyFloat (strInit s) = none) : lxcSizeContribution s = 0 := by
  rw [lxcSizeContribution, if_pos hG, h1]
  rfl

theorem lxcSize_unparseable_M (s : String) (hM : pyEndsWith s "M" = true)
    (h1 : pyFloat (strInit s) = none) : lxcSizeContribution s = 0 := by
  have hG := endsWith_M_not_G s hM
  rw [lxcSizeContribution, if_neg (by simp [hG]), if_pos hM, h1]
  rfl

theorem lxcSize_unparseable_plain (s : String) (hG : pyEndsWith s "G" = false)
    (hM : pyEndsWith s "M" = false) (h : pyFloat s = none) :
    lxcSizeContribution s = 0 := by
  rw [lxcSizeContribution, if_neg (by simp [hG]), if_neg (by simp [hM]), h]
  rfl

theorem qemuSize_eq_lxc (s : String) :
    qemuSizeContribution (.s s) = .ok (lxcSizeContribution s) := rfl

theorem agentIpLoop_no_ipv4 (ifaces : List NetInterface)
    (h : ∀ i ∈ ifaces, ∀ r ∈ i.ipAddresses, r.ipType ≠ some "ipv4") :
    ∀ acc, agentIpLoop ifaces acc = acc := by
  induction ifaces with
  | nil => intro acc; rfl
  | cons i rest ih =>
    intro acc
    have hf : i.ipAddresses.find? (fun r => r.ipType == some "ipv4") = none :=
      List.find?_eq_none.mpr (fun r hr => by
        simp only [beq_iff_eq]
        exact fun e => h i (List.mem_cons_self i rest) r hr e)
    rw [agentIpLoop, hf]
    show (if optStrTruthy acc = true then acc else agentIpLoop rest acc) = acc
    by_cases ht : optStrTruthy acc = true
    · rw [if_pos ht]
    · rw [if_neg ht]
      exact ih (fun i' hi' => h i' (List.mem_cons_of_mem i hi')) acc

theorem agentIpLoop_spec (ifaces : List NetInterface)
    (h : ∀ i ∈ ifaces, ∀ r ∈ i.ipAddresses, r.ipType = some "ipv4" →
      ∃ s, r.ipAddr = some s ∧ s ≠ "") :
    agentIpLoop ifaces none = firstIpv4Spec ifaces := by
  induction ifaces with
  | nil => rfl
  | cons i rest ih =>
    cases hf : i.ipAddresses.find? (fun r => r.ipType == some "ipv4") with
    | none =>
      rw [agentIpLoop, hf]
      show (if optStrTruthy none = true then none else agentIpLoop rest none)
          = firstIpv4Spec (i :: rest)
      rw [if_neg (by simp [optStrTruthy])]
      rw [firstIpv4Spec]
      simp only [List.map_cons, List.flatten_cons, List.find?_append, hf, Option.none_or]
      exact ih (fun i' hi' => h i' (List.mem_cons_of_mem i hi'))
    | some r =>
      have hp := List.find?_some hf
      simp only [beq_iff_eq] at hp
      have hmem : r ∈ i.ipAddresses := List.mem_of_find?_eq_some hf
      obtain ⟨s, hs, hne⟩ :=
        h i (List.mem_cons_self i rest) r hmem hp
      rw [agentIpLoop, hf]
      show (if optStrTruthy r.ipAddr = true then r.ipAddr else agentIpLoop rest r.ipAddr)
          = firstIpv4Spec (i :: rest)
      rw [hs]
      rw [if_pos (by simp [optStrTruthy, hne])]
      rw [firstIpv4Spec]
      simp only [List.map_cons, List.flatten_cons, List.find?_append, hf, Option.or_some]
      exact hs.symm

theorem exceptMatchBool (r : Except PyErr Unit) :
    ((match r with | .ok _ => true | .error _ => false) = true ↔ r = .ok ()) ∧
    ((match r with | .ok _ => true | .error _ => false) = false ↔ ∃ e, r = .error e) := by
  cases r with
  | ok u => cases u; simp
  | error e => simp

theorem getNodesLoop_eq_filterMap (env : Env) (tops : List NodeTop) :
    getNodesLoop env tops = tops.filterMap (fun nt => (buildNode env nt).toOption) := by
  induction tops with
  | nil => rfl
  | cons nt rest ih =>
    cases hb : buildNode env nt with
    | ok r => simp [getNodesLoop, hb, List.filterMap_cons, Except.toOption, ih]
    | error e => simp [getNodesLoop, hb, List.filterMap_cons, Except.toOption, ih]

theorem getVmsLoop_eq_filterMap (env : Env) (rs : List VmResource) :
    getVmsLoop env rs = rs.filterMap (fun r => (buildVmItem env r).toOption) := by
  induction rs with
  | nil => rfl
  | cons r rest ih =>
    cases hb : buildVmItem env r with
    | ok v => simp [getVmsLoop, hb, List.filterMap_cons, Except.toOption, ih]
    | error e => simp [getVmsLoop, hb, List.filterMap_cons, Except.toOption, ih]

/-! ## The claims -/

/-- Claim C1: the size-parsing step of `get_vms` converts disk-size strings to
bytes with fixed multipliers: a trailing "G" multiplies the numeric prefix by
1024 cubed (so "1G" yields 1073741824), a trailing "M" multiplies it by 1024
squared (so "512M" yields 536870912), a bare-digit string yields its numeric
value, and any unparseable string contributes 0 — whichever branch applies:
a "G"- or "M"-suffixed string whose prefix `float()` rejects, or an
unsuffixed string `float()` rejects (such as "2T" or "500K") — and the LXC
and the QEMU parse steps agree on every string. -/
theorem claim_C1_size_parsing :
    (lxcSizeContribution "1G" = 1073741824 ∧
      qemuSizeContribution (.s "1G") = .ok 1073741824) ∧
    (lxcSizeContribution "512M" = 536870912 ∧
      qemuSizeContribution (.s "512M") = .ok 536870912) ∧
    (∀ (cs : List Char) (v : ℚ), pyFloat ⟨cs⟩ = some v →
      lxcSizeContribution ⟨cs ++ ['G']⟩ = v * (1024 * 1024 * 1024) ∧
      qemuSizeContribution (.s ⟨cs ++ ['G']⟩) = .ok (v * (1024 * 1024 * 1024))) ∧
    (∀ (cs : List Char) (v : ℚ), pyFloat ⟨cs⟩ = some v →
      lxcSizeContribution ⟨cs ++ ['M']⟩ = v * (1024 * 1024) ∧
      qemuSizeContribution (.s ⟨cs ++ ['M']⟩) = .ok (v * (1024 * 1024))) ∧
    (∀ (cs : List Char), cs ≠ [] → (∀ x ∈ cs, x.isDigit = true) →
      lxcSizeContribution ⟨cs⟩ = (digitsVal cs : ℚ) ∧
      qemuSizeContribution (.s ⟨cs⟩) = .ok (digitsVal cs : ℚ)) ∧
    (∀ s : String, pyEndsWith s "G" = true → pyFloat (strInit s) = none →
      lxcSizeContribution s = 0 ∧ qemuSizeContribution (.s s) = .ok 0) ∧
    (∀ s : String, pyEndsWith s "M" = true → pyFloat (strInit s) = none →
      lxcSizeContribution s = 0 ∧ qemuSizeContribution (.s s) = .ok 0) ∧
    (∀ s : String, pyEndsWith s "G" = false → pyEndsWith s "M" = false →
      pyFloat s = none →
      lxcSizeContribution s = 0 ∧ qemuSizeContribution (.s s) = .ok 0) ∧
    (∀ s : String, qemuSizeContribution (.s s) = .ok (lxcSizeContribution s)) := by
  have h1 : pyFloat ⟨['1']⟩ = some 1 := by
    rw [pyFloat_digits ['1'] (by simp) (by decide)]
    norm_num [show digitsVal ['1'] = 1 from by decide]
  have h512 : pyFloat ⟨['5', '1', '2']⟩ = some 512 := by
    rw [pyFloat_digits ['5', '1', '2'] (by simp) (by decide)]
    norm_num [show digitsVal ['5', '1', '2'] = 512 from by decide]
  have e1 : lxcSizeContribution "1G" = 1073741824 :=
    (lxcSize_concat_G ['1'] 1 h1).trans (by norm_num)
  have e2 : lxcSizeContribution "512M" = 536870912 :=
    (lxcSize_concat_M ['5', '1', '2'] 512 h512).trans (by norm_num)
  refine ⟨⟨?_, ?_⟩, ⟨?_, ?_⟩, ?_, ?_, ?_, ?_, ?_, ?_, ?_⟩
  · exact e1
  · rw [qemuSize_eq_lxc, e1]
  · exact e2
  · rw [qemuSize_eq_lxc, e2]
  · intro cs v h
    exact ⟨lxcSize_concat_G cs v h, by rw [qemuSize_eq_lxc, lxcSize_concat_G cs v h]⟩
  · intro cs v h
    exact ⟨lxcSize_concat_M cs v h, by rw [qemuSize_eq_lxc, lxcSize_concat_M cs v h]⟩
  · intro cs h0 h
    exact ⟨lxcSize_digits cs h0 h, by rw [qemuSize_eq_lxc, lxcSize_digits cs h0 h]⟩
  · intro s hG h1
    exact ⟨lxcSize_unparseable_G s hG h1,
      by rw [qemuSize_eq_lxc, lxcSize_unparseable_G s hG h1]⟩
  · intro s hM h1
    exact ⟨lxcSize_unparseable_M s hM h1,
      by rw [qemuSize_eq_lxc, lxcSize_unparseable_M s hM h1]⟩
  · intro s hG hM h
    exact ⟨lxcSize_unparseable_plain s hG hM h,
      by rw [qemuSize_eq_lxc, lxcSize_unparseable_plain s hG hM h]⟩
  · exact qemuSize_eq_lxc

/-- Claim C1, witness: the size parser on the concrete strings "3G" (a
parseable suffixed size) and "2T", "abcM" (unparseable sizes). -/
theorem claim_C1_size_parsing_witness :
    lxcSizeContribution "3G" = 3221225472 ∧
    lxcSizeContribution "2T" = 0 ∧
    lxcSizeContribution "abcM" = 0 := by
  have h3 : pyFloat ⟨['3']⟩ = some 3 := by
    rw [pyFloat_digits ['3'] (by simp) (by decide)]
    norm_num [show digitsVal ['3'] = 3 from by decide]
  refine ⟨?_, ?_, ?_⟩
  · have h := (claim_C1_size_parsing.2.2.1 ['3'] 3 h3).1
    exact h.trans (by norm_num)
  · exact (claim_C1_size_parsing.2.2.2.2.2.2.2.1 "2T" (by decide) (by decide) (by decide)).1
  · exact (claim_C1_size_parsing.2.2.2.2.2.2.1 "abcM" (by decide) (by decide)).1

/-- Claim C2, amended: when every ipv4-tagged address record carries a
present, non-empty address, the IP-selection step of `get_vms` for a QEMU VM
returns the first address whose `ip-address-type` equals "ipv4" in interface
order then address order; it returns none when no record is tagged "ipv4" and
when the agent query raises.  (As originally stated the claim fails: the
outer loop's `if ip_address:` truthiness test skips an ipv4-tagged record
whose address is empty or missing — see the counterexample.) -/
theorem claim_C2_ipv4_selection :
    (∀ ifaces : List NetInterface,
      (∀ i ∈ ifaces, ∀ r ∈ i.ipAddresses, r.ipType = some "ipv4" →
        ∃ s, r.ipAddr = some s ∧ s ≠ "") →
      qemuIp (.ok ⟨some ifaces⟩) = firstIpv4Spec ifaces) ∧
    (∀ ifaces : List NetInterface,
      (∀ i ∈ ifaces, ∀ r ∈ i.ipAddresses, r.ipType ≠ some "ipv4") →
      qemuIp (.ok ⟨some ifaces⟩) = none) ∧
    (∀ e : PyErr, qemuIp (.error e) = none) := by
  refine ⟨?_, ?_, ?_⟩
  · intro ifaces h
    show agentIpLoop ifaces none = firstIpv4Spec ifaces
    exact agentIpLoop_spec ifaces h
  · intro ifaces h
    show agentIpLoop ifaces none = none
    exact agentIpLoop_no_ipv4 ifaces h none
  · intro e
    rfl

/-- Claim C2, counterexample to the claim as stated: with a first interface
whose only ipv4-tagged record has the empty address and a second interface
carrying "10.0.0.1", the code returns "10.0.0.1" while the first
ipv4-tagged address in interface-then-address order is "". -/
theorem claim_C2_counterexample :
    qemuIp (.ok ⟨some [⟨[⟨some "ipv4", some ""⟩]⟩, ⟨[⟨some "ipv4", some "10.0.0.1"⟩]⟩]⟩)
        = some "10.0.0.1" ∧
    firstIpv4Spec [⟨[⟨some "ipv4", some ""⟩]⟩, ⟨[⟨some "ipv4", some "10.0.0.1"⟩]⟩]
        = some "" ∧
    (some "10.0.0.1" : Option String) ≠ some "" := by
  refine ⟨rfl, rfl, by decide⟩

/-- Claim C2, witness: the selection on a one-interface response. -/
theorem claim_C2_ipv4_selection_witness :
    qemuIp (.ok ⟨some [⟨[⟨some "ipv4", some "10.0.0.2"⟩]⟩]⟩)
      = firstIpv4Spec [⟨[⟨some "ipv4", some "10.0.0.2"⟩]⟩] := by
  apply claim_C2_ipv4_selection.1
  intro i hi r hr _
  simp only [List.mem_singleton] at hi
  subst hi
  simp only [List.mem_singleton] at hr
  subst hr
  exact ⟨"10.0.0.2", rfl, by decide⟩

/-- Claim C3: for every sensor entity whose backing id (VM id, node id, or
storage id plus node pair) matches no record in the bundle's list, the
coordinator update leaves the entity unavailable and its native value is
none. -/
theorem claim_C3_missing_id_unavailable :
    (∀ (vms : List VmRecord) (prev : SensorQState) (vm_id : PyId),
      (∀ vm ∈ vms, pyStr vm.id ≠ pyStr vm_id) →
      (vmCpuUpdateState prev (findVmRecord vms vm_id)).available = false ∧
      vmCpuNativeValue (vmCpuUpdateState prev (findVmRecord vms vm_id)) = none) ∧
    (∀ (nodes : List NodeRecord) (prev : SensorZState) (node_id : String),
      (∀ n ∈ nodes, n.id ≠ node_id) →
      (nodeDiskUpdateState prev (findNodeRecord nodes node_id)).available = false ∧
      nodeDiskNativeValue (nodeDiskUpdateState prev (findNodeRecord nodes node_id)) = none) ∧
    (∀ (storages : List StorageRecord) (prev : SensorZState) (storage_id node_id : String),
      (∀ st ∈ storages, ¬(st.id = storage_id ∧ st.node = node_id)) →
      (storageUpdateState prev (findStorageRecord storages storage_id node_id)).available
          = false ∧
      storageNativeValue (storageUpdateState prev (findStorageRecord storages storage_id node_id))
          = none) := by
  refine ⟨?_, ?_, ?_⟩
  · intro vms prev vm_id h
    have hn : findVmRecord vms vm_id = none :=
      List.find?_eq_none.mpr (fun vm hm => by
        simp only [beq_iff_eq]
        exact h vm hm)
    rw [hn]
    exact ⟨rfl, rfl⟩
  · intro nodes prev node_id h
    have hn : findNodeRecord nodes node_id = none :=
      List.find?_eq_none.mpr (fun n hm => by
        simp only [beq_iff_eq]
        exact h n hm)
    rw [hn]
    exact ⟨rfl, rfl⟩
  · intro storages prev storage_id node_id h
    have hn : findStorageRecord storages storage_id node_id = none :=
      List.find?_eq_none.mpr (fun st hm => by
        simp only [Bool.and_eq_true, beq_iff_eq]
        exact fun hc => h st hm hc)
    rw [hn]
    exact ⟨rfl, rfl⟩

/-- Claim C3, witness: a VM CPU sensor whose VM id is absent from the
bundle. -/
theorem claim_C3_missing_id_unavailable_witness :
    (vmCpuUpdateState ⟨true, none⟩ (findVmRecord [sampleVmRecord] (.int 999))).available
        = false ∧
    vmCpuNativeValue (vmCpuUpdateState ⟨true, none⟩ (findVmRecord [sampleVmRecord] (.int 999)))
        = none :=
  claim_C3_missing_id_unavailable.1 [sampleVmRecord] ⟨true, none⟩ (.int 999) (by decide)

/-- Claim C4: for every VM present in the bundle, after a coordinator update
the Start button is available iff the VM's status is not "running", and the
Shutdown and Restart buttons are available iff the status is "running". -/
theorem claim_C4_button_gating :
    ∀ (vms : List VmRecord) (vm_id : PyId) (vm : VmRecord),
      findVmRecord vms vm_id = some vm →
      (startButtonAvail (findVmRecord vms vm_id) = true ↔ vm.status ≠ "running") ∧
      (shutdownButtonAvail (findVmRecord vms vm_id) = true ↔ vm.status = "running") ∧
      (restartButtonAvail (findVmRecord vms vm_id) = true ↔ vm.status = "running") := by
  intro vms vm_id vm h
  rw [h]
  refine ⟨?_, ?_, ?_⟩
  · simp [startButtonAvail]
  · simp [shutdownButtonAvail]
  · simp [restartButtonAvail]

/-- Claim C4, witness: the Shutdown button of a running VM is available. -/
theorem claim_C4_button_gating_witness :
    shutdownButtonAvail (findVmRecord [sampleVmRecord] (.int 100)) = true :=
  (claim_C4_button_gating [sampleVmRecord] (.int 100) sampleVmRecord rfl).2.1.mpr rfl

/-- Claim C5: every action method of the API client returns `true` exactly
when its underlying REST steps complete and `false` exactly when some step
raises; no exception propagates and no error detail is carried beyond the
boolean. -/
theorem claim_C5_actions_boolean :
    ∀ (env : Env) (node_id : String) (vm_id : PyId),
      ((startVm env node_id vm_id = true ↔ startVmRaw env node_id vm_id = .ok ()) ∧
        (startVm env node_id vm_id = false ↔
          ∃ e, startVmRaw env node_id vm_id = .error e)) ∧
      ((shutdownVm env node_id vm_id = true ↔ shutdownVmRaw env node_id vm_id = .ok ()) ∧
        (shutdownVm env node_id vm_id = false ↔
          ∃ e, shutdownVmRaw env node_id vm_id = .error e)) ∧
      ((restartVm env node_id vm_id = true ↔ restartVmRaw env node_id vm_id = .ok ()) ∧
        (restartVm env node_id vm_id = false ↔
          ∃ e, restartVmRaw env node_id vm_id = .error e)) ∧
      ((forceStopVm env node_id vm_id = true ↔ forceStopVmRaw env node_id vm_id = .ok ()) ∧
        (forceStopVm env node_id vm_id = false ↔
          ∃ e, forceStopVmRaw env node_id vm_id = .error e)) ∧
      ((forceRestartVm env node_id vm_id = true ↔
          forceRestartVmRaw env node_id vm_id = .ok ()) ∧
        (forceRestartVm env node_id vm_id = false ↔
          ∃ e, forceRestartVmRaw env node_id vm_id = .error e)) ∧
      ((shutdownNode env node_id = true ↔ shutdownNodeRaw env node_id = .ok ()) ∧
        (shutdownNode env node_id = false ↔
          ∃ e, shutdownNodeRaw env node_id = .error e)) ∧
      ((restartNode env node_id = true ↔ restartNodeRaw env node_id = .ok ()) ∧
        (restartNode env node_id = false ↔
          ∃ e, restartNodeRaw env node_id = .error e)) := by
  intro env node_id vm_id
  exact ⟨exceptMatchBool _, exceptMatchBool _, exceptMatchBool _, exceptMatchBool _,
    exceptMatchBool _, exceptMatchBool _, exceptMatchBool _⟩

/-- Claim C5, witness: `start_vm` on an all-ok environment returns true. -/
theorem claim_C5_actions_boolean_witness :
    startVm sampleEnv "pve" (.int 100) = true :=
  (claim_C5_actions_boolean sampleEnv "pve" (.int 100)).1.1.mpr rfl

/-- Claim C6: `get_nodes` and `get_vms` keep exactly the items whose per-item
detail fetch succeeds, in order; a single failing item is omitted and the
remaining items are returned unchanged. -/
theorem claim_C6_per_item_omission :
    (∀ (env : Env) (tops : List NodeTop),
      getNodesLoop env tops = tops.filterMap (fun nt => (buildNode env nt).toOption)) ∧
    (∀ (env : Env) (l₁ : List NodeTop) (x : NodeTop) (l₂ : List NodeTop) (e : PyErr),
      buildNode env x = .error e →
      getNodesLoop env (l₁ ++ x :: l₂) = getNodesLoop env (l₁ ++ l₂)) ∧
    (∀ (env : Env) (rs : List VmResource),
      getVmsLoop env rs = rs.filterMap (fun r => (buildVmItem env r).toOption)) ∧
    (∀ (env : Env) (l₁ : List VmResource) (x : VmResource) (l₂ : List VmResource)
        (e : PyErr),
      buildVmItem env x = .error e →
      getVmsLoop env (l₁ ++ x :: l₂) = getVmsLoop env (l₁ ++ l₂)) := by
  refine ⟨getNodesLoop_eq_filterMap, ?_, getVmsLoop_eq_filterMap, ?_⟩
  · intro env l₁ x l₂ e h
    rw [getNodesLoop_eq_filterMap, getNodesLoop_eq_filterMap]
    simp [List.filterMap_append, List.filterMap_cons, h, Except.toOption]
  · intro env l₁ x l₂ e h
    rw [getVmsLoop_eq_filterMap, getVmsLoop_eq_filterMap]
    simp [List.filterMap_append, List.filterMap_cons, h, Except.toOption]

/-- Claim C6, witness: a node whose status query fails is dropped from the
poll while the healthy node is kept. -/
theorem claim_C6_per_item_omission_witness :
    getNodesLoop sampleEnvBadNode
        [sampleNodeTop, { node := "pve2", name := none, status := none }]
      = getNodesLoop sampleEnvBadNode [sampleNodeTop] :=
  claim_C6_per_item_omission.2.1 sampleEnvBadNode [sampleNodeTop]
    { node := "pve2", name := none, status := none } [] (.apiError "down") rfl

/-- Claim C7: each poll tick ignores the previous bundle, and on success the
fetches run in the fixed order `get_nodes`, `get_vms`, `get_storages` and
produce a fresh bundle holding exactly those three results. -/
theorem claim_C7_poll_bundle :
    ∀ (env : Env) (prev prev' : Bundle),
      pollTick env prev = pollTick env prev' ∧
      (∀ (ns : List NodeRecord) (vs : List VmRecord) (ss : List StorageRecord),
        getNodes env = .ok ns → getVms env = .ok vs → getStorages env = .ok ss →
        pollTick env prev =
          (.ok { nodes := ns, vms := vs, storages := ss },
            ["get_nodes", "get_vms", "get_storages"])) := by
  intro env prev prev'
  refine ⟨rfl, ?_⟩
  intro ns vs ss h1 h2 h3
  simp [pollTick, pollUpdateData, h1, h2, h3]

/-- Claim C7, witness: a tick over the all-ok environment. -/
theorem claim_C7_poll_bundle_witness :
    pollTick sampleEnv { nodes := [], vms := [], storages := [] } =
      (.ok { nodes := [sampleNodeRecord], vms := [sampleVmRecord],
             storages := [sampleStorageRecord] },
        ["get_nodes", "get_vms", "get_storages"]) :=
  (claim_C7_poll_bundle sampleEnv { nodes := [], vms := [], storages := [] }
    { nodes := [], vms := [], storages := [] }).2
    [sampleNodeRecord] [sampleVmRecord] [sampleStorageRecord] rfl rfl rfl

/-- Claim C8: the Force Restart button is available for every VM present in
the bundle regardless of its status, becomes unavailable only when the VM id
is absent, and in particular stays available where the status-gated Start
button does not. -/
theorem claim_C8_force_restart_ungated :
    ∀ (vms : List VmRecord) (vm_id : PyId),
      (∀ vm : VmRecord, findVmRecord vms vm_id = some vm →
        forceRestartButtonAvail (findVmRecord vms vm_id) = true) ∧
      (findVmRecord vms vm_id = none →
        forceRestartButtonAvail (findVmRecord vms vm_id) = false) ∧
      (∀ vm : VmRecord, findVmRecord vms vm_id = some vm → vm.status = "running" →
        startButtonAvail (findVmRecord vms vm_id) = false ∧
        forceRestartButtonAvail (findVmRecord vms vm_id) = true) := by
  intro vms vm_id
  refine ⟨?_, ?_, ?_⟩
  · intro vm h; rw [h]; rfl
  · intro h; rw [h]; rfl
  · intro vm h hs
    rw [h]
    exact ⟨by simp [startButtonAvail, hs], rfl⟩

/-- Claim C8, witness: for a running VM, Start is unavailable while Force
Restart is available. -/
theorem claim_C8_force_restart_ungated_witness :
    startButtonAvail (findVmRecord [sampleVmRecord] (.int 100)) = false ∧
    forceRestartButtonAvail (findVmRecord [sampleVmRecord] (.int 100)) = true :=
  (claim_C8_force_restart_ungated [sampleVmRecord] (.int 100)).2.2 sampleVmRecord rfl rfl

/-- Claim C9: `get_nodes` fills the node's disk field from the first listed
disk whose mount point is "/" (taking its used and size values), leaves it as
the empty record otherwise, and an empty disk record makes the node disk
sensor unavailable with a none native value. -/
theorem claim_C9_root_mount_disk :
    (∀ (disks : List DiskEntry) (d : DiskEntry),
      disks.find? (fun d => d.mount == some "/") = some d →
      rootDiskUsage disks = some { used := d.used.getD 0, total := d.size.getD 0 }) ∧
    (∀ disks : List DiskEntry,
      disks.find? (fun d => d.mount == some "/") = none → rootDiskUsage disks = none) ∧
    (∀ (prev : SensorZState) (n : NodeRecord), n.disk = none →
      (nodeDiskUpdateState prev (some n)).available = false ∧
      nodeDiskNativeValue (nodeDiskUpdateState prev (some n)) = none) := by
  refine ⟨?_, ?_, ?_⟩
  · intro disks d h
    rw [rootDiskUsage, h]
    rfl
  · intro disks h
    rw [rootDiskUsage, h]
    rfl
  · intro prev n h
    constructor
    · simp [nodeDiskUpdateState, h]
    · simp [nodeDiskNativeValue, nodeDiskUpdateState, h]

/-- Claim C9, witness: a single root-mounted disk entry. -/
theorem claim_C9_root_mount_disk_witness :
    rootDiskUsage [{ mount := some "/", used := some 7, size := some 9 }]
      = some { used := 7, total := 9 } :=
  claim_C9_root_mount_disk.1 [{ mount := some "/", used := some 7, size := some 9 }]
    { mount := some "/", used := some 7, size := some 9 } rfl

/-- Claim C10: `_get_vm_type` compares VM ids after `str()` conversion on
both sides (an integer id matches its string form), returns the matching
resource's type, defaults to "qemu" when no resource matches, and therefore
every action method addresses an unknown VM through the QEMU endpoints. -/
theorem claim_C10_vm_type_lookup :
    (∀ (rs : List VmResource) (node_id : String) (n : ℤ),
      vmTypeLookup rs node_id (.int n) = vmTypeLookup rs node_id (.str (toString n))) ∧
    (∀ (rs : List VmResource) (node_id : String) (vm_id : PyId) (r : VmResource),
      rs.find? (fun r => pyStr r.vmid == pyStr vm_id && r.node == node_id) = some r →
      vmTypeLookup rs node_id vm_id = r.rtype.getD "qemu") ∧
    (∀ (rs : List VmResource) (node_id : String) (vm_id : PyId),
      rs.find? (fun r => pyStr r.vmid == pyStr vm_id && r.node == node_id) = none →
      vmTypeLookup rs node_id vm_id = "qemu") ∧
    (∀ (env : Env) (rs : List VmResource) (node_id : String) (vm_id : PyId),
      env.connect = .ok () → env.vmResources = .ok rs →
      rs.find? (fun r => pyStr r.vmid == pyStr vm_id && r.node == node_id) = none →
      startVmRaw env node_id vm_id = env.qemuStart node_id vm_id ∧
      shutdownVmRaw env node_id vm_id = env.qemuShutdown node_id vm_id ∧
      restartVmRaw env node_id vm_id = env.qemuReboot node_id vm_id ∧
      forceStopVmRaw env node_id vm_id = env.qemuStop node_id vm_id ∧
      forceRestartVmRaw env node_id vm_id =
        env.qemuStop node_id vm_id >>= fun _ => env.qemuStart node_id vm_id) := by
  refine ⟨?_, ?_, ?_, ?_⟩
  · intro rs node_id n
    rfl
  · intro rs node_id vm_id r h
    rw [vmTypeLookup, h]
  · intro rs node_id vm_id h
    rw [vmTypeLookup, h]
  · intro env rs node_id vm_id hc hr hf
    have ht : vmTypeRaw env node_id vm_id = .ok "qemu" := by
      simp [vmTypeRaw, hc, hr, vmTypeLookup, hf, Bind.bind, Except.bind]
    refine ⟨?_, ?_, ?_, ?_, ?_⟩
    · simp [startVmRaw, hc, ht, Bind.bind, Except.bind]
    · simp [shutdownVmRaw, hc, ht, Bind.bind, Except.bind]
    · simp [restartVmRaw, hc, ht, Bind.bind, Except.bind]
    · simp [forceStopVmRaw, hc, ht, Bind.bind, Except.bind]
    · simp [forceRestartVmRaw, hc, ht, Bind.bind, Except.bind]

/-- Claim C10, witness: starting an unknown VM id goes through the QEMU
start endpoint. -/
theorem claim_C10_vm_type_lookup_witness :
    startVmRaw sampleEnv "pve" (.int 999) = sampleEnv.qemuStart "pve" (.int 999) :=
  (claim_C10_vm_type_lookup.2.2.2 sampleEnv [sampleVmResource] "pve" (.int 999)
    rfl rfl rfl).1
